import Mathlib

/-!
Verification of the runtime linker/stubber of the `wepl` repository
(src/src/runtime.rs), as a shallow embedding in Lean.

Pure data (wit-parser types, signatures, identifiers) are translated into
inductive types; the stateful `Runtime` methods become explicit
state-passing functions returning their `anyhow::Result` outcome together
with the final state, so that partial mutation before a `bail!` is
observable, exactly as it is through `&mut self` in the source.

External collaborators are modelled at their interface, following the
specification where their code is not part of the repository sources:
the world resolver (crate::wit, §6 of the spec) is an abstract structure
of lookup functions; the wasmtime `Linker` with `allow_shadowing(true)`
is the spec's Import Binding Table (§4.2: `install` with replace
semantics); instantiation resolves every import path of a component in
that table.  Lookups the source `unwrap`s (`type_by_id`, `interface_by_id`)
are modelled as total functions.
-/

namespace Wepl

/-- wit_parser::Type: primitive component-model types plus an identifier
reference into a per-component metadata universe (the arena index of
`wit_parser::TypeId`). -/
inductive WitType where
  | bool
  | u8
  | u16
  | u32
  | u64
  | s8
  | s16
  | s32
  | s64
  | f32
  | f64
  | char
  | string
  | id (i : Nat)
deriving DecidableEq, BEq

/-- wit_parser::TypeDefKind, with the payloads the equivalence algorithm
reads.  `type_` is the transparent alias kind `TypeDefKind::Type`;
`record`, `flags`, `tuple`, `enum`, `option`, `resource`, `future`,
`stream`, `unknown` are present so that the catch-all arm of
`type_defs_equal` is observable on them. -/
inductive TypeDefKind where
  | record (fields : List (String × WitType))
  | resource
  | flags (names : List String)
  | tuple (ts : List WitType)
  | variant (cases : List (String × Option WitType))
  | enum (names : List String)
  | option (t : WitType)
  | result (ok err : Option WitType)
  | list (t : WitType)
  | future (t : Option WitType)
  | stream (t : Option WitType)
  | type_ (t : WitType)
  | unknown
deriving DecidableEq

/-- wit_parser::TypeDef, restricted to the one field the runtime reads. -/
structure TypeDef where
  kind : TypeDefKind
deriving DecidableEq

/-- wit_parser::Results: either named results or a single anonymous one. -/
inductive Results where
  | named (ps : List (String × WitType))
  | anon (t : WitType)
deriving DecidableEq

/-- wit_parser::Function, restricted to the fields the runtime reads:
ordered named parameters and the results. -/
structure Function where
  name : String
  params : List (String × WitType)
  results : Results
deriving DecidableEq

/-- wit_parser::Interface as consumed by the runtime: an ordered map of
function name to signature and of type name to type id. -/
structure Interface where
  functions : List (String × Function)
  types : List (String × Nat)
deriving DecidableEq

/-- command::parser::ItemIdent: an optionally interface-qualified function
name. -/
structure ItemIdent where
  interface : Option String
  item : String
deriving DecidableEq

/-- command::parser::Ident: the two identifier shapes accepted by `stub`. -/
inductive Ident where
  | item (i : ItemIdent)
  | interface (name : String)
deriving DecidableEq

/-- The world-resolver interface (crate::wit::WorldResolver) as consumed by
runtime.rs, per §6 of the specification.  Lookups the source unwraps
(`type_by_id(..).unwrap()`) are modelled as total functions: every theorem
below only evaluates them at identifiers their universe defines. -/
structure WorldResolver where
  type_by_id : Nat → TypeDef
  imported_function : ItemIdent → Option Function
  exported_function : ItemIdent → Option Function
  imported_interface : String → Option Interface
  exported_interface : String → Option Interface

mutual

/-- Translation of `types_equal` (src/src/runtime.rs:493-523).  The `fuel`
argument only bounds the recursion depth, which in the source is bounded by
the (acyclic) type-definition graphs of the two universes; `none` means the
budget ran out and is never asserted by any theorem.  Note that in the arm
where only the right-hand side is an identifier the source resolves it with
`resolver1`, not `resolver2` — the translation mirrors that. -/
def types_equal (fuel : Nat) (resolver1 : WorldResolver) (t1 : WitType)
    (resolver2 : WorldResolver) (t2 : WitType) : Option Bool :=
  match fuel, t1, t2 with
  | 0, _, _ => none
  | fuel + 1, WitType.id i1, WitType.id i2 =>
      type_defs_equal fuel resolver1 (resolver1.type_by_id i1).kind
        resolver2 (resolver2.type_by_id i2).kind
  | fuel + 1, WitType.id i1, t2 =>
      match (resolver1.type_by_id i1).kind with
      | TypeDefKind.type_ t1 => types_equal fuel resolver1 t1 resolver2 t2
      | _ => some false
  | fuel + 1, t1, WitType.id i2 =>
      match (resolver1.type_by_id i2).kind with
      | TypeDefKind.type_ t2 => types_equal fuel resolver1 t1 resolver2 t2
      | _ => some false
  | _ + 1, t1, t2 => some (decide (t1 = t2))

/-- Translation of `type_defs_equal` (src/src/runtime.rs:525-563): only
`Result`, `List` and `Variant` are compared structurally; every other pair
of kinds falls to the catch-all (`// TODO: more comparisons`) and is
reported unequal. -/
def type_defs_equal (fuel : Nat) (resolver1 : WorldResolver) (t1 : TypeDefKind)
    (resolver2 : WorldResolver) (t2 : TypeDefKind) : Option Bool :=
  match fuel, t1, t2 with
  | 0, _, _ => none
  | fuel + 1, TypeDefKind.result ok1 err1, TypeDefKind.result ok2 err2 => do
      let oks ← match ok1, ok2 with
        | none, none => some true
        | some t1, some t2 => types_equal fuel resolver1 t1 resolver2 t2
        | _, _ => some false
      let errs ← match err1, err2 with
        | none, none => some true
        | some t1, some t2 => types_equal fuel resolver1 t1 resolver2 t2
        | _, _ => some false
      some (oks && errs)
  | fuel + 1, TypeDefKind.list t1, TypeDefKind.list t2 =>
      types_equal fuel resolver1 t1 resolver2 t2
  | fuel + 1, TypeDefKind.variant v1, TypeDefKind.variant v2 =>
      if v1.length ≠ v2.length then some false
      else variant_cases_equal fuel resolver1 v1 resolver2 v2
  | _ + 1, _, _ => some false

/-- The `v1.cases.iter().zip(v2.cases.iter()).all(..)` loop of the variant
arm of `type_defs_equal`: short-circuit conjunction over paired cases of
name equality and payload equivalence. -/
def variant_cases_equal (fuel : Nat) (resolver1 : WorldResolver)
    (cs1 : List (String × Option WitType)) (resolver2 : WorldResolver)
    (cs2 : List (String × Option WitType)) : Option Bool :=
  match fuel, cs1, cs2 with
  | 0, _, _ => none
  | _ + 1, [], _ => some true
  | _ + 1, _, [] => some true
  | fuel + 1, c1 :: cs1, c2 :: cs2 =>
      let te : Option Bool :=
        match c1.2, c2.2 with
        | some t1, some t2 => types_equal fuel resolver1 t1 resolver2 t2
        | none, none => some true
        | _, _ => some false
      match te with
      | none => none
      | some te =>
          if c1.1 = c2.1 ∧ te then
            variant_cases_equal fuel resolver1 cs1 resolver2 cs2
          else some false

end

/-- A resolver whose every lookup fails or is degenerate; concrete universes
below override the fields they use. -/
def emptyResolver : WorldResolver where
  type_by_id := fun _ => { kind := TypeDefKind.unknown }
  imported_function := fun _ => none
  exported_function := fun _ => none
  imported_interface := fun _ => none
  exported_interface := fun _ => none

/-- First-match association lookup, used for the ordered maps of the model
(`Interface.functions`, `Interface.types`, named-result maps; all have
unique keys in well-formed metadata). -/
def assoc_get {α : Type} (l : List (String × α)) (name : String) : Option α :=
  match l with
  | [] => none
  | e :: rest => if e.1 = name then some e.2 else assoc_get rest name

/-- An import path of the binding table: `interface = none` for a root
function, otherwise a function inside the named imported instance. -/
structure Path where
  interface : Option String
  item : String
deriving DecidableEq

/-- The closures installed into the linker, identified by what they
capture: `stub` is the initial-load stub closure (capturing the world
item's qualified name passed to the side-effect callback), `cross` is the
cross-component closure of `stub_function`/`stub_interface` (capturing the
donor component's identity and the located export), `host` stands for a
handler contributed by `wasmtime_wasi::add_to_linker_sync`. -/
inductive Handler where
  | stub (import_name : String)
  | cross (cid : Nat) (export_interface : Option String) (fun_name : String)
  | host (name : String)
deriving DecidableEq

/-- Modelled from the spec: the Import Binding Table (§4.2).  In the source
this is the wasmtime `Linker` with `allow_shadowing(true)`
(src/src/runtime.rs:40), whose code is not part of this repository;
`install` has the spec's replace semantics — it drops any entry at the
path and appends the new one, so it never errors and leaves no
duplicate. -/
def install (table : List (Path × Handler)) (p : Path) (h : Handler) :
    List (Path × Handler) :=
  table.filter (fun e => decide (e.1 ≠ p)) ++ [(p, h)]

/-- Lookup in the binding table (entries are unique by construction of
`install`). -/
def lookup (table : List (Path × Handler)) (p : Path) : Option Handler :=
  match table with
  | [] => none
  | e :: rest => if e.1 = p then some e.2 else lookup rest p

/-- Whether the linker holds an instance (interface namespace) of the given
name, as required by `Linker::instance` lookups in the source
(`no imported instance named .. found` / `no interface named .. found`). -/
def has_instance (table : List (Path × Handler)) (name : String) : Bool :=
  table.any (fun e => decide (e.1.interface = some name))

/-- Error kinds of the runtime, one constructor per `bail!`/`with_context`
site of src/src/runtime.rs (named after the source's message), plus the
spec's `InstantiationFailed` for instantiation against the binding
table. -/
inductive WeplError where
  | noImportWithName (name : String)
  | noExportWithName (name : String)
  | paramsNotEqual
  | returnValuesNotEqual
  | noExportNamed (name : String)
  | noFunctionFoundNamed (name : String)
  | noInterfaceNamed (name : String)
  | noImportedInstanceNamed (name : String)
  | noImportedInterfaceNamed (name : String)
  | noExportedInterfaceNamed (name : String)
  | noExportedFunctionNamed (name : String)
  | noExportedInstanceNamed (name : String)
  | differentNumberOfParameters
  | differentTypesForArg (arg fn : String)
  | differentNumberOfReturnTypes
  | missingReturnValue (fn name : String)
  | returnValueDifferingTypes (name : String)
  | returnTypesDidNotMatch (fn : String)
  | differentReturnTypeKinds (fn : String)
  | cannotSatisfyInterfaceImportWithFunction
  | cannotSatisfyFunctionImportWithInterface
  | instantiationFailed (p : Path)
deriving DecidableEq

/-- Validation errors, as the spec's §7 classifies them: everything except
instantiation of the primary against the binding table. -/
def WeplError.is_validation : WeplError → Bool
  | WeplError.instantiationFailed _ => false
  | _ => true

/-- The primary execution store (`Store<Context>`): a resource table and a
WASI context, abstracted to their state.  `build_store` builds it fresh
(`ResourceTable::new()` and a new `WasiCtxBuilder` inheriting stdio), so a
freshly built store always carries the initial state. -/
structure Store where
  table : Nat
  wasi : Nat
deriving DecidableEq

/-- Translation of `build_store` (src/src/runtime.rs:431-438). -/
def build_store : Store := { table := 0, wasi := 0 }

/-- The shared donor store (`ImportImpls`, src/src/runtime.rs:355-374):
the list of donor components instantiated into it (most recent first) and
its abstract mutable state, both living for the whole process. -/
structure ImportImpls where
  instances : List Nat
  state : Nat
deriving DecidableEq

/-- Component bytes, modelled as what the runtime extracts from them: the
metadata they parse to (`WorldResolver::from_bytes`), the import paths the
instantiation must resolve, and an identity for the loaded component. -/
structure ComponentBytes where
  meta : WorldResolver
  imports : List Path
  cid : Nat

/-- Translation of `WorldResolver::from_bytes` at the model's level. -/
def WorldResolver.from_bytes (b : ComponentBytes) : WorldResolver := b.meta

/-- Modelled from the spec: `instantiate` (§4.2) resolves every import path
of the component in the binding table and fails when one is missing; the
resulting list is the instance's view of its imports, in import order. -/
def resolve_imports (table : List (Path × Handler)) :
    List Path → Except WeplError (List (Path × Handler))
  | [] => Except.ok []
  | p :: ps =>
      match lookup table p with
      | none => Except.error (WeplError.instantiationFailed p)
      | some h =>
          match resolve_imports table ps with
          | Except.ok rest => Except.ok ((p, h) :: rest)
          | Except.error e => Except.error e

/-- Modelled from the spec: snapshot-instantiation of a component against
the current binding table (wasmtime `Linker::instantiate`, external). -/
def instantiate (table : List (Path × Handler)) (c : ComponentBytes) :
    Except WeplError (List (Path × Handler)) :=
  resolve_imports table c.imports

/-- The runtime state (`struct Runtime`, src/src/runtime.rs:22-29): the
primary store, the current instance (its resolved import view), the linker
(binding table), the current component, and the shared donor store.  The
engine is immutable and carries no state the claims observe. -/
structure Runtime where
  store : Store
  inst : List (Path × Handler)
  linker : List (Path × Handler)
  component : ComponentBytes
  import_impls : ImportImpls

/-- Translation of `Runtime::refresh` (src/src/runtime.rs:346-352): the
primary store is replaced by a freshly built one first; then the current
component is instantiated against the current linker into it.  As in the
source, on instantiation failure the fresh store is already in place and
the stale instance remains. -/
def Runtime.refresh (rt : Runtime) : Except WeplError Unit × Runtime :=
  match instantiate rt.linker rt.component with
  | Except.ok inst => (Except.ok (), { rt with store := build_store, inst := inst })
  | Except.error e => (Except.error e, { rt with store := build_store })

/-- Translation of `Runtime::set_component` (src/src/runtime.rs:318-321):
replace the component, then `refresh`; nothing else is touched. -/
def Runtime.set_component (rt : Runtime) (component : ComponentBytes) :
    Except WeplError Unit × Runtime :=
  Runtime.refresh { rt with component := component }

/-- Instantiating a donor into the shared donor store
(`linker.instantiate(&mut *store_lock, &component)` under the store lock):
the donor joins the store's instances. -/
def donor_instantiate (impls : ImportImpls) (c : ComponentBytes) : ImportImpls :=
  { impls with instances := c.cid :: impls.instances }

/-- The export lookup on the instantiated donor (src/src/runtime.rs:275-286):
drill into the exported instance named by `export_ident.interface` when it
is present, then find the function; the instance's exports mirror the donor
metadata. -/
def locate_export (other : WorldResolver) (export_ident : ItemIdent) :
    Except WeplError Unit :=
  match export_ident.interface with
  | some interface =>
      match other.exported_interface interface with
      | none => Except.error (WeplError.noExportNamed interface)
      | some i =>
          match assoc_get i.functions export_ident.item with
          | none => Except.error (WeplError.noFunctionFoundNamed export_ident.item)
          | some _ => Except.ok ()
  | none => Except.ok ()

/-- The second half of `stub_function` (src/src/runtime.rs:269-315), running
after the type check has passed and the donor has been instantiated into
the shared store: locate the export function, then install the
cross-component closure capturing it at the import path, and refresh. -/
def stub_function_install (rt : Runtime) (other : WorldResolver)
    (import_ident export_ident : ItemIdent) (cid : Nat) :
    Except WeplError Unit × Runtime :=
  match locate_export other export_ident with
  | Except.error e => (Except.error e, rt)
  | Except.ok () =>
    match import_ident.interface with
    | some interface =>
        if has_instance rt.linker interface then
          Runtime.refresh { rt with
            linker := install rt.linker ⟨some interface, import_ident.item⟩
              (Handler.cross cid export_ident.interface export_ident.item) }
        else (Except.error (WeplError.noInterfaceNamed interface), rt)
    | none =>
        Runtime.refresh { rt with
          linker := install rt.linker ⟨none, import_ident.item⟩
            (Handler.cross cid export_ident.interface export_ident.item) }

/-- Translation of `Runtime::stub_function` (src/src/runtime.rs:247-316).
Control flow in source order: resolve the import signature, parse donor
metadata and resolve the export signature, compare `params` and `results`
with the derived (intrinsic) equality of the metadata — `!=` on
`wit_parser` values, NOT `types_equal` — then load and instantiate the
donor into the shared store and hand over to `stub_function_install`. -/
def Runtime.stub_function (rt : Runtime) (resolver : WorldResolver)
    (import_ident export_ident : ItemIdent) (component_bytes : ComponentBytes) :
    Except WeplError Unit × Runtime :=
  match resolver.imported_function import_ident with
  | none => (Except.error (WeplError.noImportWithName import_ident.item), rt)
  | some import_fn =>
    match (WorldResolver.from_bytes component_bytes).exported_function export_ident with
    | none => (Except.error (WeplError.noExportWithName export_ident.item), rt)
    | some export_fn =>
      if import_fn.params ≠ export_fn.params then
        (Except.error WeplError.paramsNotEqual, rt)
      else if import_fn.results ≠ export_fn.results then
        (Except.error WeplError.returnValuesNotEqual, rt)
      else
        stub_function_install
          { rt with import_impls := donor_instantiate rt.import_impls component_bytes }
          (WorldResolver.from_bytes component_bytes) import_ident export_ident
          component_bytes.cid

/-- The positional parameter check of the `stub_interface` loop
(src/src/runtime.rs:188-198): zip the two parameter lists (lengths already
checked) and compare each pair with `types_equal`; the first failing pair
bails carrying the import-side argument name.  Comparisons whose recursion
budget runs out are conservatively treated as unequal; every theorem whose
conclusion depends on such a comparison also proves it returns a defined
answer at the budget used. -/
def params_check (fuel : Nat) (resolver other : WorldResolver) :
    List (String × WitType) → List (String × WitType) → String → Option WeplError
  | [], _, _ => none
  | _, [], _ => none
  | (arg_name, p1) :: ps1, (_, p2) :: ps2, fun_name =>
      if (types_equal fuel resolver p1 other p2).getD false then
        params_check fuel resolver other ps1 ps2 fun_name
      else some (WeplError.differentTypesForArg arg_name fun_name)

/-- The named-results check of the `stub_interface` loop
(src/src/runtime.rs:204-213): the export's named results are indexed by
name and every import result name must be present with an equivalent
type. -/
def named_results_check (fuel : Nat) (resolver other : WorldResolver) :
    List (String × WitType) → List (String × WitType) → String → Option WeplError
  | [], _, _ => none
  | (name, ty) :: rest, es, fun_name =>
      match assoc_get es name with
      | none => some (WeplError.missingReturnValue fun_name name)
      | some e =>
          if (types_equal fuel resolver ty other e).getD false then
            named_results_check fuel resolver other rest es fun_name
          else some (WeplError.returnValueDifferingTypes name)

/-- The return-type check of the `stub_interface` loop
(src/src/runtime.rs:199-221): both named (same length, name-indexed
equivalent types), both anonymous (equivalent types), or a kind
mismatch. -/
def results_check (fuel : Nat) (resolver other : WorldResolver)
    (rimp rexp : Results) (fun_name : String) : Option WeplError :=
  match rimp, rexp with
  | Results.named is_, Results.named es =>
      if is_.length ≠ es.length then some WeplError.differentNumberOfReturnTypes
      else named_results_check fuel resolver other is_ es fun_name
  | Results.anon t1, Results.anon t2 =>
      if (types_equal fuel resolver t1 other t2).getD false then none
      else some (WeplError.returnTypesDidNotMatch fun_name)
  | _, _ => some (WeplError.differentReturnTypeKinds fun_name)

/-- The per-function loop of `stub_interface` (src/src/runtime.rs:180-241),
running after the donor has been instantiated into the shared store: for
each imported function in order, look up the same-named export, check
parameter arity, positional parameter types and return types, then
immediately capture the export and install the cross-component closure at
`import_ident::fun_name` — so a later function's failure leaves the
closures already installed for earlier functions in place.  After the loop,
`refresh`. -/
def stub_interface_loop (fuel : Nat) (rt : Runtime) (resolver other : WorldResolver)
    (export_i : Interface) (import_ident export_ident : String) (cid : Nat) :
    List (String × Function) → Except WeplError Unit × Runtime
  | [] => Runtime.refresh rt
  | (fun_name, imported_function) :: rest =>
      match assoc_get export_i.functions fun_name with
      | none => (Except.error (WeplError.noExportedFunctionNamed fun_name), rt)
      | some exported_function =>
          if imported_function.params.length ≠ exported_function.params.length then
            (Except.error WeplError.differentNumberOfParameters, rt)
          else
            match params_check fuel resolver other
                imported_function.params exported_function.params fun_name with
            | some e => (Except.error e, rt)
            | none =>
                match results_check fuel resolver other
                    imported_function.results exported_function.results fun_name with
                | some e => (Except.error e, rt)
                | none =>
                    let rt := { rt with
                      linker := install rt.linker ⟨some import_ident, fun_name⟩
                        (Handler.cross cid (some export_ident) fun_name) }
                    stub_interface_loop fuel rt resolver other export_i
                      import_ident export_ident cid rest

/-- Translation of `Runtime::stub_interface` (src/src/runtime.rs:156-245).
Control flow in source order: load the donor component, look up the
imported instance in the linker, then resolve the imported interface,
parse donor metadata, resolve the exported interface, and — before any
per-function check — instantiate the donor once into the shared donor
store, and run the per-function loop. -/
def Runtime.stub_interface (fuel : Nat) (rt : Runtime) (resolver : WorldResolver)
    (import_ident export_ident : String) (component_bytes : ComponentBytes) :
    Except WeplError Unit × Runtime :=
  if has_instance rt.linker import_ident then
    match resolver.imported_interface import_ident with
    | none => (Except.error (WeplError.noImportedInterfaceNamed import_ident), rt)
    | some import_i =>
      match (WorldResolver.from_bytes component_bytes).exported_interface export_ident with
      | none => (Except.error (WeplError.noExportedInterfaceNamed export_ident), rt)
      | some export_i =>
        stub_interface_loop fuel
          { rt with import_impls := donor_instantiate rt.import_impls component_bytes }
          resolver (WorldResolver.from_bytes component_bytes) export_i
          import_ident export_ident component_bytes.cid import_i.functions
  else (Except.error (WeplError.noImportedInstanceNamed import_ident), rt)

/-- Translation of `Runtime::stub` (src/src/runtime.rs:133-154): dispatch
on the two identifier shapes; mismatched shapes bail immediately. -/
def Runtime.stub (fuel : Nat) (rt : Runtime) (resolver : WorldResolver)
    (import_ident export_ident : Ident) (component_bytes : ComponentBytes) :
    Except WeplError Unit × Runtime :=
  match import_ident, export_ident with
  | Ident.item ii, Ident.item ei =>
      Runtime.stub_function rt resolver ii ei component_bytes
  | Ident.interface ii, Ident.interface ei =>
      Runtime.stub_interface fuel rt resolver ii ei component_bytes
  | Ident.interface _, Ident.item _ =>
      (Except.error WeplError.cannotSatisfyInterfaceImportWithFunction, rt)
  | Ident.item _, Ident.interface _ =>
      (Except.error WeplError.cannotSatisfyFunctionImportWithInterface, rt)

/-- Typed values crossing the call boundary (wasmtime `Val`), restricted to
a representative subset. -/
inductive Val where
  | bool (b : Bool)
  | u32 (n : Nat)
  | str (s : String)
deriving DecidableEq

/-- Body of the stub closure `init` installs for every unresolved import
(src/src/runtime.rs:52-55 and 64-67):
`move |_ctx, _args, _rets| { stub_import(&import_name); Ok(()) }` — it
invokes the side-effect callback with the captured world-item name and
returns `Ok(())` without writing to the result slots.  The returned pair
is (callback invocations, final result slots). -/
def stub_handler (import_name : String) (_args rets : List Val) :
    List String × List Val :=
  ([import_name], rets)

/-- Modelled from the spec's words (for comparison with the source's stub
closure): a result slot is "default-initialized (zero-filled)" when it
holds its type's zero value. -/
def Val.zero_filled : Val → Bool
  | Val.bool b => b = false
  | Val.u32 n => n = 0
  | Val.str s => s = ""

/-! Concrete metadata universes and runtime states used as inputs of the
theorems below. -/

/-- A universe in which every type id denotes the record `{x: u32}`. -/
def recordUniverse : WorldResolver :=
  { emptyResolver with
    type_by_id := fun _ => { kind := TypeDefKind.record [("x", WitType.u32)] } }

/-- A universe in which every type id is a transparent alias of `u32`. -/
def aliasU32Universe : WorldResolver :=
  { emptyResolver with
    type_by_id := fun _ => { kind := TypeDefKind.type_ WitType.u32 } }

/-- A universe in which every type id is a transparent alias of `string`. -/
def aliasStringUniverse : WorldResolver :=
  { emptyResolver with
    type_by_id := fun _ => { kind := TypeDefKind.type_ WitType.string } }

/-- The root item identifier `f`. -/
def fIdent : ItemIdent := { interface := none, item := "f" }

/-- The root import path `f`. -/
def pathF : Path := { interface := none, item := "f" }

/-- A primary component importing the single root function `f`. -/
def comp0 : ComponentBytes := { meta := emptyResolver, imports := [pathF], cid := 0 }

/-- A primary runtime state right after load: the lone import `f` is
stubbed. -/
def rt0 : Runtime :=
  { store := build_store
    inst := [(pathF, Handler.stub "f")]
    linker := [(pathF, Handler.stub "f")]
    component := comp0
    import_impls := { instances := [], state := 0 } }

/-- Primary metadata importing `f(x: #0) -> u32` where id 0 resolves to
`list<u32>` in this universe. -/
def primaryMetaC1 : WorldResolver :=
  { emptyResolver with
    type_by_id := fun _ => { kind := TypeDefKind.list WitType.u32 }
    imported_function := fun i =>
      if i = fIdent then
        some { name := "f", params := [("x", WitType.id 0)], results := Results.anon WitType.u32 }
      else none }

/-- Donor metadata exporting `f(x: #5) -> u32` where id 5 resolves to
`list<u32>` in this (distinct) universe. -/
def donorMetaC1 : WorldResolver :=
  { emptyResolver with
    type_by_id := fun _ => { kind := TypeDefKind.list WitType.u32 }
    exported_function := fun i =>
      if i = fIdent then
        some { name := "f", params := [("x", WitType.id 5)], results := Results.anon WitType.u32 }
      else none }

/-- The donor component carrying `donorMetaC1`. -/
def donorC1 : ComponentBytes := { meta := donorMetaC1, imports := [], cid := 1 }

/-- Primary metadata importing `f(x: #0) -> u32` where id 0 resolves to
`variant { a }` in this universe. -/
def primaryMetaC1b : WorldResolver :=
  { emptyResolver with
    type_by_id := fun _ => { kind := TypeDefKind.variant [("a", none)] }
    imported_function := fun i =>
      if i = fIdent then
        some { name := "f", params := [("x", WitType.id 0)], results := Results.anon WitType.u32 }
      else none }

/-- Donor metadata exporting `f(x: #0) -> u32` where id 0 resolves to
`variant { b }` in this (distinct) universe: same arena index, structurally
different type. -/
def donorMetaC1b : WorldResolver :=
  { emptyResolver with
    type_by_id := fun _ => { kind := TypeDefKind.variant [("b", none)] }
    exported_function := fun i =>
      if i = fIdent then
        some { name := "f", params := [("x", WitType.id 0)], results := Results.anon WitType.u32 }
      else none }

/-- The donor component carrying `donorMetaC1b`. -/
def donorC1b : ComponentBytes := { meta := donorMetaC1b, imports := [], cid := 1 }

/-- Signature `f(a: u32) -> u32`, shared by import and export sides. -/
def fnC4f : Function :=
  { name := "f", params := [("a", WitType.u32)], results := Results.anon WitType.u32 }

/-- Imported signature `g(a: u32, b: u32) -> u32`. -/
def fnC4gImp : Function :=
  { name := "g", params := [("a", WitType.u32), ("b", WitType.u32)], results := Results.anon WitType.u32 }

/-- Exported signature `g(a: u32) -> u32`: one parameter short. -/
def fnC4gExp : Function :=
  { name := "g", params := [("a", WitType.u32)], results := Results.anon WitType.u32 }

/-- The imported interface `i` with functions `f` (well matched) and `g`
(arity mismatch against the donor). -/
def importIC4 : Interface := { functions := [("f", fnC4f), ("g", fnC4gImp)], types := [] }

/-- The donor's exported interface `i`. -/
def exportIC4 : Interface := { functions := [("f", fnC4f), ("g", fnC4gExp)], types := [] }

/-- Primary metadata importing interface `i`. -/
def resolverC4 : WorldResolver :=
  { emptyResolver with
    imported_interface := fun n => if n = "i" then some importIC4 else none }

/-- Donor metadata exporting interface `i`. -/
def donorMetaC4 : WorldResolver :=
  { emptyResolver with
    exported_interface := fun n => if n = "i" then some exportIC4 else none }

/-- The donor component carrying `donorMetaC4`. -/
def donorC4 : ComponentBytes := { meta := donorMetaC4, imports := [], cid := 1 }

/-- A primary runtime state whose imported interface `i` (functions `f`,
`g`) is fully stubbed. -/
def rtC4 : Runtime :=
  { store := build_store
    inst := [(⟨some "i", "f"⟩, Handler.stub "i"), (⟨some "i", "g"⟩, Handler.stub "i")]
    linker := [(⟨some "i", "f"⟩, Handler.stub "i"), (⟨some "i", "g"⟩, Handler.stub "i")]
    component := { meta := emptyResolver
                   imports := [⟨some "i", "f"⟩, ⟨some "i", "g"⟩], cid := 0 }
    import_impls := { instances := [], state := 0 } }

/-- A cross-component handler installed for the previous component. -/
def hOld : Handler := Handler.cross 7 none "f"

/-- A replacement primary component that also imports the root function
`f`. -/
def newCompC9 : ComponentBytes := { meta := emptyResolver, imports := [pathF], cid := 2 }

/-- A runtime whose import `f` was stubbed to a donor before
`set_component`; the store and donor store carry non-initial state. -/
def rtC9 : Runtime :=
  { store := { table := 4, wasi := 9 }
    inst := [(pathF, hOld)]
    linker := [(pathF, hOld)]
    component := comp0
    import_impls := { instances := [7], state := 3 } }

/-! Helper lemmas shared by the claim theorems. -/

/-- Instantiation against the binding table fails only with
`instantiationFailed`. -/
theorem resolve_imports_error_shape (table : List (Path × Handler)) :
    ∀ ps e, resolve_imports table ps = Except.error e →
      ∃ p, e = WeplError.instantiationFailed p := by
  intro ps
  induction ps with
  | nil => intro e h; simp [resolve_imports] at h
  | cons q ps ih =>
      intro e h
      cases hq : lookup table q with
      | none =>
          simp only [resolve_imports, hq] at h
          injection h with h2
          exact ⟨q, h2.symm⟩
      | some hh =>
          cases hr : resolve_imports table ps with
          | error e2 =>
              simp only [resolve_imports, hq, hr] at h
              injection h with h2
              exact h2 ▸ ih e2 hr
          | ok rest => simp [resolve_imports, hq, hr] at h

/-- Resolved import entries come from the binding table. -/
theorem resolve_imports_mem (table : List (Path × Handler)) :
    ∀ ps l, resolve_imports table ps = Except.ok l →
      ∀ p h, (p, h) ∈ l → lookup table p = some h := by
  intro ps
  induction ps with
  | nil =>
      intro l hl p h hm
      simp only [resolve_imports] at hl
      injection hl with h2
      subst h2
      simp at hm
  | cons q ps ih =>
      intro l hl p h hm
      cases hq : lookup table q with
      | none => simp [resolve_imports, hq] at hl
      | some hh =>
          cases hr : resolve_imports table ps with
          | error e => simp [resolve_imports, hq, hr] at hl
          | ok rest =>
              simp only [resolve_imports, hq, hr] at hl
              injection hl with h2
              subst h2
              rcases List.mem_cons.mp hm with hm | hm
              · obtain ⟨rfl, rfl⟩ := Prod.mk.injEq .. |>.mp hm
                exact hq
              · exact ih rest hr p h hm

/-- On failure, `refresh` keeps the current instance. -/
theorem refresh_error_inst (rt : Runtime) (e : WeplError) :
    (Runtime.refresh rt).1 = Except.error e → (Runtime.refresh rt).2.inst = rt.inst := by
  unfold Runtime.refresh
  split <;> intro h
  · exact Except.noConfusion h
  · rfl

/-- Errors of `refresh` are instantiation failures, never validation
errors. -/
theorem refresh_error_shape (rt : Runtime) (e : WeplError) :
    (Runtime.refresh rt).1 = Except.error e → ∃ p, e = WeplError.instantiationFailed p := by
  unfold Runtime.refresh
  split
  · intro h; exact Except.noConfusion h
  · rename_i e2 he
    intro h
    obtain rfl : e2 = e := (Except.error.injEq _ _).mp h
    exact resolve_imports_error_shape _ _ _ he

/-- `refresh` never touches the binding table. -/
theorem refresh_linker (rt : Runtime) : (Runtime.refresh rt).2.linker = rt.linker := by
  unfold Runtime.refresh
  split <;> rfl

/-- `refresh` never touches the shared donor store. -/
theorem refresh_import_impls (rt : Runtime) :
    (Runtime.refresh rt).2.import_impls = rt.import_impls := by
  unfold Runtime.refresh
  split <;> rfl

/-- `refresh` never touches the current component. -/
theorem refresh_component (rt : Runtime) :
    (Runtime.refresh rt).2.component = rt.component := by
  unfold Runtime.refresh
  split <;> rfl

/-- `refresh` always installs a freshly built primary store, on failure
too. -/
theorem refresh_store (rt : Runtime) : (Runtime.refresh rt).2.store = build_store := by
  unfold Runtime.refresh
  split <;> rfl

/-- The per-function loop of `stub_interface` never touches the shared
donor store (the donor was instantiated before it). -/
theorem stub_interface_loop_import_impls (fuel : Nat) (resolver other : WorldResolver)
    (export_i : Interface) (ii ei : String) (cid : Nat) :
    ∀ funs rt,
      (stub_interface_loop fuel rt resolver other export_i ii ei cid funs).2.import_impls
        = rt.import_impls := by
  intro funs
  induction funs with
  | nil => intro rt; exact refresh_import_impls _
  | cons hd tl ih =>
      intro rt
      simp only [stub_interface_loop]
      split
      · rfl
      · split
        · rfl
        · split
          · rfl
          · split
            · rfl
            · exact ih _

/-- On failure, the per-function loop of `stub_interface` has not refreshed:
the current instance is unchanged. -/
theorem stub_interface_loop_error_inst (fuel : Nat) (resolver other : WorldResolver)
    (export_i : Interface) (ii ei : String) (cid : Nat) :
    ∀ funs rt e,
      (stub_interface_loop fuel rt resolver other export_i ii ei cid funs).1 = Except.error e →
      (stub_interface_loop fuel rt resolver other export_i ii ei cid funs).2.inst = rt.inst := by
  intro funs
  induction funs with
  | nil => intro rt e; exact refresh_error_inst _ _
  | cons hd tl ih =>
      intro rt e
      simp only [stub_interface_loop]
      split
      · intro _; rfl
      · split
        · intro _; rfl
        · split
          · intro _; rfl
          · split
            · intro _; rfl
            · intro h; exact ih _ e h

/-- A validation failure of the install half of `stub_function` leaves the
binding table unchanged (only the final refresh, an instantiation failure,
can observe an already-mutated table). -/
theorem stub_function_install_error_linker (rt : Runtime) (other : WorldResolver)
    (ii ei : ItemIdent) (cid : Nat) (e : WeplError) :
    (stub_function_install rt other ii ei cid).1 = Except.error e →
    e.is_validation = true →
    (stub_function_install rt other ii ei cid).2.linker = rt.linker := by
  unfold stub_function_install
  split
  · intro _ _; rfl
  · split
    · split
      · intro h hv
        obtain ⟨p, rfl⟩ := refresh_error_shape _ _ h
        simp [WeplError.is_validation] at hv
      · intro _ _; rfl
    · intro h hv
      obtain ⟨p, rfl⟩ := refresh_error_shape _ _ h
      simp [WeplError.is_validation] at hv

/-- Installing at a path makes lookup at that path find the new handler. -/
theorem install_lookup_self (t : List (Path × Handler)) (p : Path) (h : Handler) :
    lookup (install t p h) p = some h := by
  induction t with
  | nil => simp [install, lookup]
  | cons e rest ih =>
      by_cases hc : e.1 = p
      · simpa [install, List.filter_cons, hc] using ih
      · simpa [install, List.filter_cons, lookup, hc] using ih

/-- After an install, the table holds exactly one entry at the installed
path. -/
theorem install_countP (t : List (Path × Handler)) (p : Path) (h : Handler) :
    (install t p h).countP (fun e => decide (e.1 = p)) = 1 := by
  unfold install
  rw [List.countP_append]
  have h0 : (t.filter (fun e => decide (e.1 ≠ p))).countP (fun e => decide (e.1 = p)) = 0 := by
    rw [List.countP_eq_zero]
    intro a ha
    simpa using (List.mem_filter.mp ha).2
  rw [h0]
  simp [List.countP_cons]

/-! The claims. -/

/-- C1: the claim says the Item→Item stub compares the import and export
parameter and result lists element-wise through the §4.3 structural
equivalence, accepting structurally equal signatures from different
metadata universes.  The code instead compares them with the metadata's
derived equality, which compares type identifiers numerically across
unrelated arenas: `f(x: #0) -> u32` against `f(x: #5) -> u32`, with both
ids denoting `list<u32>` in their own universes, is rejected with the
blanket `params not equal` — although `types_equal` accepts the pair —
and conversely two signatures whose ids coincide numerically are accepted
(`stub_function` succeeds) although `types_equal` rejects them. -/
theorem stub_function_compares_ids_not_structure :
    (Runtime.stub_function rt0 primaryMetaC1 fIdent fIdent donorC1).1
        = Except.error WeplError.paramsNotEqual
  ∧ types_equal 3 primaryMetaC1 (WitType.id 0) donorMetaC1 (WitType.id 5) = some true
  ∧ (Runtime.stub_function rt0 primaryMetaC1b fIdent fIdent donorC1b).1 = Except.ok ()
  ∧ types_equal 3 primaryMetaC1b (WitType.id 0) donorMetaC1b (WitType.id 0) = some false := by
  refine ⟨?_, ?_, ?_, ?_⟩ <;> rfl

/-- C2: the claim says the structural equivalence is reflexive for every
well-formed type, including records.  On the code, a record type compared
against itself in its own universe falls through the catch-all of
`type_defs_equal` (the source's `TODO: more comparisons`) and is reported
unequal, at every sufficient recursion budget. -/
theorem record_reflexivity_fails (fuel : Nat) :
    types_equal (fuel + 2) recordUniverse (WitType.id 0) recordUniverse (WitType.id 0)
      = some false := rfl

/-- C3: the claim says the equivalence is symmetric and that a lone
identifier side is resolved in its own universe.  The code resolves the
right-hand identifier with `resolver1` (the left universe): with universe
M1 aliasing every id to `u32` and M2 aliasing every id to `string`,
comparing `u32@M1` against `#0@M2` wrongly resolves `#0` in M1 and answers
equal, while the swapped comparison resolves `#0` in M2 and answers
unequal — the relation is not symmetric and the alias was not resolved in
its own universe. -/
theorem types_equal_not_symmetric :
    types_equal 3 aliasU32Universe WitType.u32 aliasStringUniverse (WitType.id 0) = some true
  ∧ types_equal 3 aliasStringUniverse (WitType.id 0) aliasU32Universe WitType.u32 = some false :=
  ⟨rfl, rfl⟩

/-- C4 (counterexample): an Interface→Interface stub whose function `f`
passes its checks and whose function `g` then fails the arity check
returns a validation error, yet the binding table has already been
mutated: the stub handler at `i::f` has been replaced by the
cross-component handler.  The `u32`-vs-`u32` comparison that let `f` pass
is defined at the recursion budget used. -/
theorem stub_interface_partial_install :
    (Runtime.stub_interface 3 rtC4 resolverC4 "i" "i" donorC4).1
        = Except.error WeplError.differentNumberOfParameters
  ∧ lookup (Runtime.stub_interface 3 rtC4 resolverC4 "i" "i" donorC4).2.linker
        ⟨some "i", "f"⟩ = some (Handler.cross 1 (some "i") "f")
  ∧ lookup rtC4.linker ⟨some "i", "f"⟩ = some (Handler.stub "i")
  ∧ types_equal 3 resolverC4 WitType.u32 donorMetaC4 WitType.u32 = some true := by
  refine ⟨?_, ?_, ?_, ?_⟩ <;> rfl

/-- C4 amended: a validation failure of an Item→Item stub leaves the
binding table exactly as it was; a validation failure of an
Interface→Interface stub leaves the handlers already installed for earlier
functions of the interface in place, but — since no refresh has been
published — the current instance is unchanged, so a subsequent invocation
still uses the pre-call bindings. -/
theorem validation_error_state_amended :
    (∀ rt resolver ii ei cb e,
        (Runtime.stub_function rt resolver ii ei cb).1 = Except.error e →
        e.is_validation = true →
        (Runtime.stub_function rt resolver ii ei cb).2.linker = rt.linker)
  ∧ (∀ fuel rt resolver ii ei cb e,
        (Runtime.stub_interface fuel rt resolver ii ei cb).1 = Except.error e →
        (Runtime.stub_interface fuel rt resolver ii ei cb).2.inst = rt.inst) := by
  constructor
  · intro rt resolver ii ei cb e
    unfold Runtime.stub_function
    split
    · intro _ _; rfl
    · split
      · intro _ _; rfl
      · split
        · intro _ _; rfl
        · split
          · intro _ _; rfl
          · intro h hv
            exact stub_function_install_error_linker _ _ _ _ _ _ h hv
  · intro fuel rt resolver ii ei cb e
    unfold Runtime.stub_interface
    split
    · split
      · intro _; rfl
      · split
        · intro _; rfl
        · intro h
          exact stub_interface_loop_error_inst _ _ _ _ _ _ _ _ _ _ h
    · intro _; rfl

/-- C4 amended, witnessed at the concrete failing stubs of the
counterexamples: the Item→Item `params not equal` failure leaves the table
of `rt0` unchanged; the Interface→Interface arity failure leaves the
current instance of `rtC4` unchanged. -/
theorem validation_error_state_amended_witness :
    (Runtime.stub_function rt0 primaryMetaC1 fIdent fIdent donorC1).2.linker = rt0.linker
  ∧ (Runtime.stub_interface 3 rtC4 resolverC4 "i" "i" donorC4).2.inst = rtC4.inst :=
  ⟨validation_error_state_amended.1 rt0 primaryMetaC1 fIdent fIdent donorC1
      WeplError.paramsNotEqual rfl rfl,
   validation_error_state_amended.2 3 rtC4 resolverC4 "i" "i" donorC4
      WeplError.differentNumberOfParameters rfl⟩

/-- C5 (counterexample): in an Interface→Interface stub that fails a
per-function check (arity of `g`), the donor has nevertheless been
instantiated into the shared donor store — the claim says a failing check
prevents the instantiation. -/
theorem stub_interface_instantiates_before_checks :
    (Runtime.stub_interface 3 rtC4 resolverC4 "i" "i" donorC4).1
        = Except.error WeplError.differentNumberOfParameters
  ∧ (Runtime.stub_interface 3 rtC4 resolverC4 "i" "i" donorC4).2.import_impls
        = donor_instantiate rtC4.import_impls donorC4 := ⟨rfl, rfl⟩

/-- C5 amended: the donor is instantiated into the shared donor store at
most once per `stub_interface` call; exactly once as soon as the imported
instance, the imported interface and the exported interface all resolve —
that is, before the per-function lookup/arity/type/return checks run — and
never when one of those three lookups fails. -/
theorem donor_instantiation_amended :
    (∀ fuel rt resolver ii ei cb,
        (Runtime.stub_interface fuel rt resolver ii ei cb).2.import_impls
            = rt.import_impls
      ∨ (Runtime.stub_interface fuel rt resolver ii ei cb).2.import_impls
            = donor_instantiate rt.import_impls cb)
  ∧ (∀ fuel rt resolver ii ei cb,
        has_instance rt.linker ii = true →
        resolver.imported_interface ii ≠ none →
        (WorldResolver.from_bytes cb).exported_interface ei ≠ none →
        (Runtime.stub_interface fuel rt resolver ii ei cb).2.import_impls
            = donor_instantiate rt.import_impls cb)
  ∧ (∀ fuel rt resolver ii ei cb,
        (has_instance rt.linker ii = false ∨ resolver.imported_interface ii = none
          ∨ (WorldResolver.from_bytes cb).exported_interface ei = none) →
        (Runtime.stub_interface fuel rt resolver ii ei cb).2.import_impls
            = rt.import_impls) := by
  refine ⟨?_, ?_, ?_⟩
  · intro fuel rt resolver ii ei cb
    unfold Runtime.stub_interface
    split
    · split
      · exact Or.inl rfl
      · split
        · exact Or.inl rfl
        · exact Or.inr (stub_interface_loop_import_impls _ _ _ _ _ _ _ _ _)
    · exact Or.inl rfl
  · intro fuel rt resolver ii ei cb h1 h2 h3
    unfold Runtime.stub_interface
    split
    · split
      · rename_i heq; exact absurd heq h2
      · split
        · rename_i heq; exact absurd heq h3
        · exact stub_interface_loop_import_impls _ _ _ _ _ _ _ _ _
    · rename_i hc; exact absurd h1 (by simpa using hc)
  · intro fuel rt resolver ii ei cb hd
    unfold Runtime.stub_interface
    split
    · rename_i hc
      split
      · rfl
      · rename_i import_i hImp
        split
        · rfl
        · rename_i export_i hExp
          rcases hd with hd | hd | hd
          · rw [hd] at hc; exact Bool.noConfusion hc
          · rw [hd] at hImp; exact Option.noConfusion hImp
          · rw [hd] at hExp; exact Option.noConfusion hExp
    · rfl

/-- C5 amended, witnessed concretely: the failing stub of the
counterexample instantiated the donor exactly once; the same stub aimed at
the unknown imported instance `x` left the donor store untouched. -/
theorem donor_instantiation_amended_witness :
    (Runtime.stub_interface 3 rtC4 resolverC4 "i" "i" donorC4).2.import_impls
        = donor_instantiate rtC4.import_impls donorC4
  ∧ (Runtime.stub_interface 3 rtC4 resolverC4 "x" "i" donorC4).2.import_impls
        = rtC4.import_impls :=
  ⟨donor_instantiation_amended.2.1 3 rtC4 resolverC4 "i" "i" donorC4
      (by decide) (by decide) (by decide),
   donor_instantiation_amended.2.2 3 rtC4 resolverC4 "x" "i" donorC4
      (Or.inl (by decide))⟩

/-- C6: a stub whose import and export identifiers have different shapes
fails with the shape-mismatch error of `stub`'s dispatch, and the whole
runtime state — binding table, donor store, current instance, component —
is returned exactly as it was: no donor is parsed or instantiated. -/
theorem shape_mismatch_rejected_without_effects :
    ∀ fuel rt resolver ii ei cb,
      Runtime.stub fuel rt resolver (Ident.interface ii) (Ident.item ei) cb
          = (Except.error WeplError.cannotSatisfyInterfaceImportWithFunction, rt)
    ∧ Runtime.stub fuel rt resolver (Ident.item ei) (Ident.interface ii) cb
          = (Except.error WeplError.cannotSatisfyFunctionImportWithInterface, rt) :=
  fun _ _ _ _ _ _ => ⟨rfl, rfl⟩

/-- C7 (counterexample): the stub closure invoked on a result-slot buffer
holding `u32 7` returns it untouched — it does not write zero-filled
(default-initialized) values into its result slots, contrary to the
claim. -/
theorem stub_handler_not_zero_filling :
    stub_handler "greet" [] [Val.u32 7] = (["greet"], [Val.u32 7])
  ∧ Val.zero_filled (Val.u32 7) = false := ⟨rfl, rfl⟩

/-- C7 amended: the stub handler installed at initial load invokes the
side-effect callback with the captured world-item name and leaves the
result slots exactly as the engine passed them in, relying on the engine's
own pre-initialization of the buffer rather than writing defaults
itself. -/
theorem stub_handler_amended :
    ∀ import_name args rets, stub_handler import_name args rets = ([import_name], rets) :=
  fun _ _ _ => rfl

/-- C8: installing at an already-bound path replaces the handler without
error: after `install p h1` then `install p h2`, lookup at `p` yields
`h2`, the table holds exactly one entry at `p`, and instantiating a
component importing `p` dispatches it to `h2`. -/
theorem install_shadowing (t : List (Path × Handler)) (p : Path) (h1 h2 : Handler) :
    lookup (install (install t p h1) p h2) p = some h2
  ∧ (install (install t p h1) p h2).countP (fun e => decide (e.1 = p)) = 1
  ∧ resolve_imports (install (install t p h1) p h2) [p] = Except.ok [(p, h2)] := by
  refine ⟨install_lookup_self _ _ _, install_countP _ _ _, ?_⟩
  simp [resolve_imports, install_lookup_self]

/-- C9 (counterexample): `set_component` on a runtime whose import `f` was
stubbed to a donor handler, with a new component that also imports `f`,
succeeds and the new component's instantiation dispatches `f` to exactly
the handler installed for the previous component — bindings are carried
forward, contrary to the claim. -/
theorem set_component_uses_old_bindings :
    (Runtime.set_component rtC9 newCompC9).1 = Except.ok ()
  ∧ (Runtime.set_component rtC9 newCompC9).2.linker = rtC9.linker
  ∧ (Runtime.set_component rtC9 newCompC9).2.inst = [(pathF, hOld)]
  ∧ lookup rtC9.linker pathF = some hOld := by
  refine ⟨?_, ?_, ?_, ?_⟩ <;> rfl

/-- C9 amended: `set_component` replaces the primary component bytes and
triggers `refresh`, and carries the binding table forward unchanged: every
resolved import of the new component's instantiation is served by a handler
already present in the pre-call table (handlers installed for the previous
component included, when paths coincide), while imports with no handler
make the refresh fail until they are stubbed. -/
theorem set_component_amended :
    ∀ rt c,
      (Runtime.set_component rt c).2.component = c
    ∧ (Runtime.set_component rt c).2.linker = rt.linker
    ∧ ((Runtime.set_component rt c).1 = Except.ok () →
        ∀ p h, (p, h) ∈ (Runtime.set_component rt c).2.inst →
          lookup rt.linker p = some h) := by
  intro rt c
  refine ⟨refresh_component _, refresh_linker _, ?_⟩
  unfold Runtime.set_component Runtime.refresh
  split
  · rename_i inst hinst
    intro _ p h hm
    exact resolve_imports_mem _ _ _ hinst p h hm
  · intro h0
    exact Except.noConfusion h0

/-- C9 amended, witnessed at the concrete replacement of the
counterexample: the previous component's donor handler serves the new
component's import `f`. -/
theorem set_component_amended_witness : lookup rtC9.linker pathF = some hOld :=
  (set_component_amended rtC9 newCompC9).2.2 rfl pathF hOld (List.mem_singleton_self _)

/-- C10: every `refresh` installs a freshly built primary store — the
initial resource table and WASI context, whatever state the previous store
carried — and leaves the shared donor store untouched; `set_component`
(hence `compose`) behaves the same; and on success the published instance
is the one instantiated against the current table and component with the
fresh store in place. -/
theorem refresh_discards_primary_state :
    ∀ rt,
      (Runtime.refresh rt).2.store = build_store
    ∧ (Runtime.refresh rt).2.import_impls = rt.import_impls
    ∧ (∀ c, (Runtime.set_component rt c).2.store = build_store
          ∧ (Runtime.set_component rt c).2.import_impls = rt.import_impls)
    ∧ (∀ i, instantiate rt.linker rt.component = Except.ok i →
          Runtime.refresh rt
            = (Except.ok (), { rt with store := build_store, inst := i })) := by
  intro rt
  refine ⟨refresh_store rt, refresh_import_impls rt, ?_, ?_⟩
  · intro c
    exact ⟨refresh_store _, refresh_import_impls _⟩
  · intro i hi
    unfold Runtime.refresh
    rw [hi]

/-- C10, witnessed at a runtime with non-initial store and donor state:
its refresh rebuilds the store and republishes the instance. -/
theorem refresh_discards_primary_state_witness :
    Runtime.refresh rtC9
      = (Except.ok (), { rtC9 with store := build_store, inst := [(pathF, hOld)] }) :=
  (refresh_discards_primary_state rtC9).2.2.2 [(pathF, hOld)] rfl

end Wepl
